import Mathlib

/-!
Shallow embedding of the tabular ingestion-and-reduction pipeline of the
repository `Prokoami/api_new2` (FastAPI application under `src/Projet`).

Conventions of the embedding:
* a pandas `DataFrame` becomes `Frame`: an ordered list of column names plus
  rows, each row being its stable integer row key (pandas index label) paired
  with its list of cells;
* Python exceptions become explicit error values returned through `Except`;
* third-party numerical routines (sklearn PCA / t-SNE, umap-learn) are
  stochastic, so their numeric output is supplied by oracle parameters, while
  the validity checks they perform on their inputs (documented sklearn
  behaviour) are embedded explicitly;
* the modules `netoyage.py`, `numeric_data.py`, `methode_acp.py`,
  `auto_selector.py` are imported by `api.py` but are not part of the
  available sources; their definitions below are modelled from the spec and
  say so in their doc comments.
-/

set_option maxHeartbeats 1000000

deriving instance DecidableEq for Except

/-! ### Frame: the tabular data model -/

/-- Value of one cell of a tabular frame: a numeric value (floats embedded as
rationals), a text value, or a missing value (pandas `NaN`). -/
inductive Cell where
  | num (q : Rat)
  | texte (s : String)
  | manquant
deriving DecidableEq, Repr

/-- A pandas `DataFrame`: ordered column names and rows; each row carries its
stable row key (the pandas index label) and one cell per column. -/
structure Frame where
  cols : List String
  rows : List (Nat × List Cell)
deriving DecidableEq, Repr

/-- Row keys of a frame, in row order. -/
def Frame.cles (fr : Frame) : List Nat := fr.rows.map Prod.fst

def celluleManquante : Cell → Bool
  | .manquant => true
  | _ => false

def ligneAvecManquant (cellules : List Cell) : Bool :=
  cellules.any celluleManquante

/-- `DataFrame.empty` of pandas: true when there are no rows or no columns. -/
def frameVide (fr : Frame) : Bool := fr.rows.isEmpty || fr.cols.isEmpty

/-- Position of a column name in the column list, if present. -/
def Frame.indiceColonne (fr : Frame) (c : String) : Option Nat :=
  fr.cols.findIdx? (fun n => n = c)

/-- Cell stored at row key `k`, column named `c` (used for `.loc` access);
`Cell.manquant` when the key or the column is absent. -/
def Frame.celluleA (fr : Frame) (k : Nat) (c : String) : Cell :=
  match fr.indiceColonne c with
  | none => Cell.manquant
  | some j =>
    match fr.rows.find? (fun r => r.1 = k) with
    | none => Cell.manquant
    | some r => (r.2.getD j Cell.manquant)

/-! ### Cleaner, modelled from the spec (`netoyage.py` is not under `src/`) -/

/-- Sum of a list of rationals. -/
def sommeRat : List Rat → Rat
  | [] => 0
  | x :: xs => x + sommeRat xs

def insereRat (x : Rat) : List Rat → List Rat
  | [] => [x]
  | y :: ys => if x ≤ y then x :: y :: ys else y :: insereRat x ys

def trieRat : List Rat → List Rat
  | [] => []
  | x :: xs => insereRat x (trieRat xs)

def moyenneRat (l : List Rat) : Rat := sommeRat l / (l.length : Rat)

/-- Median in the pandas sense: middle element of the sorted values, or the
mean of the two middle elements for an even count. -/
def medianeRat (l : List Rat) : Rat :=
  let s := trieRat l
  let n := s.length
  if n % 2 = 1 then s.getD (n / 2) 0
  else (s.getD (n / 2 - 1) 0 + s.getD (n / 2) 0) / 2

/-- Numeric values present in column `j`, top to bottom. -/
def valeursNumeriquesColonne (fr : Frame) (j : Nat) : List Rat :=
  fr.rows.filterMap (fun r =>
    match r.2.getD j Cell.manquant with
    | Cell.num q => some q
    | _ => none)

/-- Replace missing cells with the per-column statistic `stat`, starting at
column index `j`; cells whose column has no statistic are left unchanged. -/
def remplaceCellules (stat : Nat → Option Rat) : Nat → List Cell → List Cell
  | _, [] => []
  | j, c :: reste =>
    (match c, stat j with
     | Cell.manquant, some v => Cell.num v
     | _, _ => c) :: remplaceCellules stat (j + 1) reste

/-- Impute missing values using a per-column statistic computed on the frame. -/
def imputeAvec (fr : Frame) (statColonne : Frame → Nat → Option Rat) : Frame :=
  ⟨fr.cols, fr.rows.map (fun r => (r.1, remplaceCellules (statColonne fr) 0 r.2))⟩

/-- Column mean, unavailable for columns with no numeric values. -/
def statMoyenne (fr : Frame) (j : Nat) : Option Rat :=
  let l := valeursNumeriquesColonne fr j
  if l.isEmpty then none else some (moyenneRat l)

/-- Column median, unavailable for columns with no numeric values. -/
def statMediane (fr : Frame) (j : Nat) : Option Rat :=
  let l := valeursNumeriquesColonne fr j
  if l.isEmpty then none else some (medianeRat l)

/-- Drop every row containing at least one missing value; row keys of the
surviving rows are preserved. -/
def lignesSansManquant (fr : Frame) : Frame :=
  ⟨fr.cols, fr.rows.filter (fun r => !(ligneAvecManquant r.2))⟩

/-- Modelled from the spec: `netoyage.py` (class `Netoyage`) is not under
`src/`; spec §4.2 fixes its missing-value handling. Strategy `drop` removes
every row containing a missing value (row keys preserved, never reused);
`mean`/`median` impute per numeric column with that column's own
mean/median, leaving columns with no numeric values unchanged; `fill`
replaces missing values with the fixed sentinel 0. -/
def Netoyage.gerer_les_valeurs_manquantes (fr : Frame) (strategy : String) : Frame :=
  if strategy = "drop" then lignesSansManquant fr
  else if strategy = "mean" then imputeAvec fr statMoyenne
  else if strategy = "median" then imputeAvec fr statMediane
  else if strategy = "fill" then imputeAvec fr (fun _ _ => some 0)
  else fr

/-- Keep the first occurrence of each duplicated row value (the cell lists
already seen are accumulated in `vues`). -/
def dedoublonne (vues : List (List Cell)) : List (Nat × List Cell) → List (Nat × List Cell)
  | [] => []
  | r :: reste =>
    if r.2 ∈ vues then dedoublonne vues reste
    else r :: dedoublonne (r.2 :: vues) reste

/-- Modelled from the spec: `netoyage.py` (class `Netoyage`) is not under
`src/`; spec §4.2 fixes duplicate removal as dropping later duplicate rows
while preserving the row keys of the survivors. -/
def Netoyage.gerer_les_valeurs_duplicates (fr : Frame) : Frame :=
  ⟨fr.cols, dedoublonne [] fr.rows⟩

/-! ### NumericProjector, modelled from the spec (`numeric_data.py` is not
under `src/`) -/

/-- A column is uniformly numeric when every row holds a numeric cell there. -/
def colonneUniformementNumerique (fr : Frame) (j : Nat) : Bool :=
  fr.rows.all (fun r =>
    match r.2.getD j Cell.manquant with
    | Cell.num _ => true
    | _ => false)

def indicesNumeriques (fr : Frame) : List Nat :=
  (List.range fr.cols.length).filter (fun j => colonneUniformementNumerique fr j)

def selectionneIndices {α : Type} (idx : List Nat) (l : List α) : List α :=
  idx.filterMap (fun j => l.get? j)

/-- Modelled from the spec: `numeric_data.py` (class `Numeric_data`, method
`num_col`) is not under `src/`; spec §4.3 fixes it as returning only the
columns whose values are uniformly numeric, with rows and row keys
preserved. -/
def Numeric_data.num_col (fr : Frame) : Frame :=
  let idx := indicesNumeriques fr
  ⟨selectionneIndices idx fr.cols, fr.rows.map (fun r => (r.1, selectionneIndices idx r.2))⟩

/-! ### String and path utilities used by the Loader embedding -/

def chaineDe (l : List Char) : String := ⟨l⟩

/-- Split a list of characters on a separator character; `courant` holds the
characters of the current field in reverse order. -/
def decoupeListe (sep : Char) (courant : List Char) : List Char → List String
  | [] => [chaineDe courant.reverse]
  | c :: reste =>
    if c = sep then chaineDe courant.reverse :: decoupeListe sep [] reste
    else decoupeListe sep (c :: courant) reste

/-- Split a string on a separator character (Python `str.split(sep)`). -/
def decoupeSur (sep : Char) (s : String) : List String :=
  decoupeListe sep [] s.data

def estPrefixeCars : List Char → List Char → Bool
  | [], _ => true
  | _ :: _, [] => false
  | a :: as, b :: bs => a = b && estPrefixeCars as bs

/-- Python `str.startswith`. -/
def commencePar (s pre : String) : Bool := estPrefixeCars pre.data s.data

/-- Python `str.endswith`. -/
def termineEn (s suf : String) : Bool :=
  estPrefixeCars suf.data.reverse s.data.reverse

/-- Python `"/".join(file_path.split("\\"))`: every backslash becomes a
forward slash. -/
def chaineAcces (file_path : String) : String :=
  ⟨file_path.data.map (fun c => if c = '\\' then '/' else c)⟩

def minusculeChaine (s : String) : String := ⟨s.data.map Char.toLower⟩

def prefixeListe {α : Type} [DecidableEq α] : List α → List α → Bool
  | [], _ => true
  | _ :: _, [] => false
  | a :: as, b :: bs => if a = b then prefixeListe as bs else false

/-- Normalisation step of `Path.resolve`: walk the components, dropping the
last accumulated component on `..` and ignoring `.` and empty components. -/
def normaliseComposants (acc : List String) : List String → List String
  | [] => acc
  | c :: reste =>
    if c = ".." then normaliseComposants acc.dropLast reste
    else if c = "." ∨ c = "" then normaliseComposants acc reste
    else normaliseComposants (acc ++ [c]) reste

/-- `Path(file_path).resolve()` as a list of components: an absolute path
resolves on its own, a relative one resolves against the current working
directory. -/
def resoudreChemin (cwd : List String) (chemin : String) : List String :=
  if commencePar chemin "/" then normaliseComposants [] (decoupeSur '/' chemin)
  else normaliseComposants cwd (decoupeSur '/' chemin)

/-- `Path(file_path).suffix.lower().replace(".", "")`: the extension of the
final component, lowercased without its dot; empty when the final component
has no dot or only a leading dot. -/
def suffixeFichier (chemin : String) : String :=
  let nom := (decoupeSur '/' chemin).getLastD ""
  let parts := decoupeSur '.' nom
  if parts.length ≤ 1 then ""
  else if parts.length = 2 ∧ parts.headD "" = "" then ""
  else minusculeChaine (parts.getLastD "")

/-- URL detection of `DataLoader.load`: `http://` or `https://` prefix. -/
def estUrl (fp : String) : Bool :=
  commencePar fp "http://" || commencePar fp "https://"

/-- Fixed project root of `loading.py`:
`Path(__file__).resolve().parents[3]`, i.e. the fixed directory containing
the `Projet` package; its concrete component names are irrelevant to the
containment check. -/
def PROJECT_ROOT : List String := ["srv", "api_new2"]

/-! ### CSV delimiter detection (`loading.py`, local `csv` branch) -/

def contientCarListe : List Char → Char → Bool
  | [], _ => false
  | x :: xs, c => x = c || contientCarListe xs c

/-- Python `sep in premiere_ligne` for a one-character separator. -/
def contientCar (s : String) (c : Char) : Bool := contientCarListe s.data c

def compteCarListe : List Char → Char → Nat
  | [], _ => 0
  | x :: xs, c => (if x = c then 1 else 0) + compteCarListe xs c

/-- Number of occurrences of a character in a string. -/
def compteCar (s : String) (c : Char) : Nat := compteCarListe s.data c

/-- The candidate separators of `loading.py`, in priority order. -/
def SEPARATEURS : List Char := [';', '|', '\t', ',']

/-- Delimiter detection of the local CSV branch: `index_sepateur` starts at 0
and the scan keeps the first candidate occurring in the first line, so the
result is the first candidate contained in the line, or `;` when none is. -/
def detecter_separateur (premiere_ligne : String) : Char :=
  match SEPARATEURS.find? (fun c => contientCar premiere_ligne c) with
  | some c => c
  | none => ';'

/-! ### The Loader (`loading.py`, `DataLoader.load`) -/

/-- Python exception raised by an underlying reading or parsing operation
inside the `try` block of `load`. -/
inductive RawExc where
  | parserExc (msg : String)
  | valueExc (msg : String)
  | autreExc (msg : String)
deriving DecidableEq, Repr

/-- Exception escaping `DataLoader.load` to its caller: `ValueError` (raised
by the containment check, outside the `try`), `FileNotFoundError` and
`pandas.errors.ParserError` (both re-raised as-is by the final handlers), or
the generic `Exception` produced by the final catch-all wrap. -/
inductive PyErr where
  | valueError (msg : String)
  | fileNotFound (msg : String)
  | parserError (msg : String)
  | wrappedException (msg : String)
deriving DecidableEq, Repr

/-- Value returned by a successful `load`: a frame from the local CSV branch
(recording the separator handed to `pd.read_csv`), a frame from any other
tabular branch, a raw text blob, or an image array. -/
inductive LoadVal where
  | csvFrame (sep : Char)
  | tableVal
  | texteVal
  | imageVal
deriving DecidableEq, Repr

/-- State of one local path: absent (`os.path.exists` false), existing but
unreadable (every open or read raises `OSError`), or a readable file with
its first line and the outcome of handing it to its format's reader. -/
inductive FSEntry where
  | absente
  | illisible
  | fichier (premiereLigne : String) (lecture : Except RawExc Unit)

/-- Environment of one `load` call: current working directory, local
filesystem, and the outcomes of the remote operations (`pd.read_csv` or
`pd.read_excel` on a URL, `requests.get`, and decoding a fetched body as
JSON or YAML). -/
structure EnvChargement where
  cwd : List String
  fs : List String → FSEntry
  lectureUrlPandas : String → Except RawExc Unit
  telechargement : String → Except String Unit
  decodageDistant : String → Except RawExc Unit

def ACCES_REFUSE : String :=
  "Accès non autorisé : le chemin spécifié est en dehors du répertoire de travail."

def MSG_ILLISIBLE : String := "OSError lors de la lecture du fichier local"

def MSG_PARSE_CSV : String :=
  "Erreur de parsing CSV. Assurez-vous que le séparateur est l\x27un de : [\x27;\x27, \x27|\x27, \x27\\t\x27, \x27,\x27]"

def PREFIXE_ENVELOPPE : String := "Une erreur est survenue lors du chargement : "

/-- Final exception handlers of `load`: `FileNotFoundError` and `ParserError`
propagate unchanged, every other exception is wrapped into a generic
`Exception` whose message embeds the cause. -/
def envelopper : RawExc → PyErr
  | .parserExc m => .parserError m
  | .valueExc m => .wrappedException (PREFIXE_ENVELOPPE ++ m)
  | .autreExc m => .wrappedException (PREFIXE_ENVELOPPE ++ m)

/-- Remote branch (CASE 1) of `DataLoader.load`: CSV and spreadsheets are
read directly by pandas from the URL; other recognised types are fetched
with `requests.get` then decoded; anything else raises the unsupported
remote format `ValueError` (wrapped by the final handler). -/
def chargeDistant (env : EnvChargement) (fp ft : String) : Except PyErr LoadVal :=
  if ft = "csv" ∨ ft = "xls" ∨ ft = "xlsx" then
    match env.lectureUrlPandas fp with
    | .ok _ => .ok .tableVal
    | .error e => .error (envelopper e)
  else
    match env.telechargement fp with
    | .error m =>
      .error (envelopper (.autreExc
        ("Erreur de téléchargement de l\x27URL \x27" ++ fp ++ "\x27: " ++ m)))
    | .ok _ =>
      if ft = "json" ∨ ft = "yaml" ∨ ft = "yml" then
        match env.decodageDistant fp with
        | .ok _ => .ok .tableVal
        | .error e => .error (envelopper e)
      else if ft = "txt" then .ok .texteVal
      else .error (envelopper (.valueExc
        ("Format de fichier distant non supporté : \x27" ++ ft ++ "\x27")))

/-- Extension dispatch of the local branch of `DataLoader.load` for a
readable existing file: CSV with delimiter detection on the first line and
a ParserError re-raise with a fixed message; the other tabular formats; SQL
only when both a query and a database path were given; images; raw text;
and the unsupported local format `ValueError` (wrapped by the final
handler). -/
def chargeFichierLocal (ft : String) (sql_query db_path : Option String)
    (image_as_dataframe : Bool) (ligne : String) (lecture : Except RawExc Unit) :
    Except PyErr LoadVal :=
  if ft = "csv" then
    match lecture with
    | .ok _ => .ok (.csvFrame (detecter_separateur ligne))
    | .error (.parserExc _) => .error (.parserError MSG_PARSE_CSV)
    | .error e => .error (envelopper e)
  else if ft = "xls" ∨ ft = "xlsx" ∨ ft = "json" ∨ ft = "yaml" ∨ ft = "yml"
      ∨ ft = "parquet" then
    match lecture with
    | .ok _ => .ok .tableVal
    | .error e => .error (envelopper e)
  else if ft = "sql" then
    match db_path, sql_query with
    | some _, some _ =>
      match lecture with
      | .ok _ => .ok .tableVal
      | .error e => .error (envelopper e)
    | _, _ => .error (envelopper (.valueExc
        ("Format de fichier local non supporté : \x27sql\x27")))
  else if ft = "png" ∨ ft = "jpg" ∨ ft = "jpeg" then
    match lecture with
    | .ok _ => .ok (if image_as_dataframe then .tableVal else .imageVal)
    | .error e => .error (envelopper e)
  else if ft = "txt" then
    match lecture with
    | .ok _ => .ok .texteVal
    | .error e => .error (envelopper e)
  else .error (envelopper (.valueExc
    ("Format de fichier local non supporté : \x27" ++ ft ++ "\x27")))

/-- Local branch (CASE 2) of `DataLoader.load`: a missing path raises
`FileNotFoundError`; an existing unreadable file raises `OSError` at open
time (wrapped by the final handler); a readable file dispatches on its
extension. -/
def chargeLocal (entree : FSEntry) (fp ft : String) (sql_query db_path : Option String)
    (image_as_dataframe : Bool) : Except PyErr LoadVal :=
  match entree with
  | .absente =>
    .error (.fileNotFound
      ("Erreur : Le fichier à l\x27adresse \x27" ++ fp ++ "\x27 est introuvable."))
  | .illisible => .error (.wrappedException (PREFIXE_ENVELOPPE ++ MSG_ILLISIBLE))
  | .fichier ligne lecture =>
    chargeFichierLocal ft sql_query db_path image_as_dataframe ligne lecture

/-- Embedding of `DataLoader.load` (`loading.py`). Backslashes are first
replaced by slashes; a non-URL path is resolved and checked for containment
in `PROJECT_ROOT` before the file type is even computed (a failure raises
`ValueError` outside the `try` block); the file type is the lowercased
extension; then the URL or local branch dispatches on it, with the final
exception handlers embedded by `envelopper` and the explicit
`fileNotFound`/`parserError` constructors. -/
def DataLoader.load (env : EnvChargement) (file_path : String)
    (sql_query : Option String) (db_path : Option String)
    (image_as_dataframe : Bool) : Except PyErr LoadVal :=
  let fp := chaineAcces file_path
  if !(estUrl fp) && !(prefixeListe PROJECT_ROOT (resoudreChemin env.cwd fp)) then
    .error (.valueError ACCES_REFUSE)
  else
    let ft := suffixeFichier fp
    if estUrl fp then chargeDistant env fp ft
    else chargeLocal (env.fs (resoudreChemin env.cwd fp)) fp ft sql_query db_path
      image_as_dataframe

/-- The spec's taxonomy (§7) for load failures cited by the claim: the four
normalized kinds a caller is supposed to be able to distinguish. -/
inductive KindSpec where
  | sourceUnreachable
  | parseErrKind
  | unsupportedFormat
  | notFoundKind
deriving DecidableEq, Repr

/-- Comparison definition following the spec's words (§4.1, §7): which of the
four normalized kinds an escaped exception realises. `FileNotFoundError` is
the `NotFound` surfacing and `ParserError` the `ParseError` surfacing, as
both are distinct exception types the caller can catch; a generic wrapped
`Exception` is the catch-all the taxonomy excludes (a network failure and an
unsupported format raise the very same type), and the containment
`ValueError` realises `AccessDenied`, which is outside these four kinds. -/
def kindNormalise : PyErr → Option KindSpec
  | .fileNotFound _ => some .notFoundKind
  | .parserError _ => some .parseErrKind
  | .valueError _ => none
  | .wrappedException _ => none

/-! ### Visualisation parameters (`api.py`, Pydantic models) -/

/-- Pydantic model `ParametresVisualisation` of `api.py`. -/
structure ParametresVisualisation where
  colonne_couleur : Option String
  titre : String
  perplexite : Int
  n_voisins : Int
  dist_min : Rat
deriving DecidableEq, Repr

/-- The rational 1/10, the Pydantic default of `dist_min`. -/
def unDixieme : Rat := ⟨1, 10, by norm_num, by norm_num⟩

/-- Field defaults of `ParametresVisualisation`, used when the caller's JSON
omits a field: no colour column, title `Visualisation Interactive`,
`perplexite` 30, `n_voisins` 15, `dist_min` 0.1. -/
def parametresVisualisationDefaut : ParametresVisualisation :=
  ⟨none, "Visualisation Interactive", 30, 15, unDixieme⟩

/-- Pydantic field validation of `ParametresVisualisation`: `perplexite ≥ 1`,
`n_voisins ≥ 2`, `dist_min ≥ 0`. -/
def ParametresVisualisation.valide (p : ParametresVisualisation) : Bool :=
  1 ≤ p.perplexite && 2 ≤ p.n_voisins && 0 ≤ p.dist_min

/-- Pydantic model `ParametresNettoyage` of `api.py` (defaults: everything
off, no imputation strategy). -/
structure ParametresNettoyage where
  supprimer_na : Bool
  supprimer_doublons : Bool
  strategie_imputation : Option String
deriving DecidableEq, Repr

def parametresNettoyageDefaut : ParametresNettoyage := ⟨false, false, none⟩

/-- A FastAPI `HTTPException`, carrying its status code and detail string. -/
structure HttpExc where
  status : Nat
  detail : String
deriving DecidableEq, Repr

/-! ### Reduction strategies (`methode_acp.py`, `methode_tsne.py`,
`methode_umap.py`) -/

/-- Reduction method selected by the API caller. -/
inductive Methode where
  | acp
  | tsne
  | umap
  | auto
deriving DecidableEq, Repr

/-- A concrete strategy, after `auto` has been resolved. -/
inductive MethodeBase where
  | acp
  | tsne
  | umap
deriving DecidableEq, Repr

def nomEnMajuscules : MethodeBase → String
  | .acp => "ACP"
  | .tsne => "TSNE"
  | .umap => "UMAP"

/-- Numeric outcomes of the third-party routines, supplied as oracles since
the embeddings are stochastic: each returns either the message of an
internal numerical failure or the coordinate row for each row position.
`choixAuto` is the `AutoSelector` heuristic (`auto_selector.py` is not under
`src/`; spec §4.5 only fixes that it is a pure function of the numeric frame
and the target dimensionality). -/
structure OraclesReduction where
  acpCalc : Frame → Nat → Except String (Nat → List Rat)
  tsneCalc : Frame → Nat → Int → Except String (Nat → List Rat)
  umapCalc : Frame → Nat → Int → Rat → Except String (Nat → List Rat)
  choixAuto : Frame → Nat → MethodeBase

/-- Modelled from the spec: `methode_acp.py` (class `MethodeACP`) is not
under `src/`; spec §4.4 fixes the linear strategy as deterministic with an
`InsufficientRank` failure when the target dimensionality exceeds the
numeric column count. -/
def MethodeACP.acp_reduction (O : OraclesReduction) (df : Frame)
    (nombre_de_dimension : Nat) : Except String (Nat → List Rat) :=
  if df.cols.length < nombre_de_dimension then
    .error "n_components exceeds the numeric column count"
  else O.acpCalc df nombre_de_dimension

/-- Embedding of `MethodeTSNE.tsne_reduction` (`methode_tsne.py`): it hands
the frame to `sklearn.manifold.TSNE(n_components, perplexity)` with no
validation of its own; sklearn raises
`ValueError: perplexity must be less than n_samples` when
`perplexity >= n_samples`, and otherwise the stochastic embedding runs. -/
def MethodeTSNE.tsne_reduction (O : OraclesReduction) (df : Frame)
    (nombre_de_dimension : Nat) (perplexity : Int) : Except String (Nat → List Rat) :=
  if (df.rows.length : Int) ≤ perplexity then
    .error "perplexity must be less than n_samples"
  else O.tsneCalc df nombre_de_dimension perplexity

/-- Embedding of `MethodeUMAP.umap_reduction` (`methode_umap.py`): it hands
the frame and its two hyperparameters straight to
`umap.UMAP(n_components, n_neighbors, min_dist)`; the function's own Python
defaults are `n_neighbors=10`, `min_dist=0.1`, but `api.py` always passes
both explicitly. -/
def MethodeUMAP.umap_reduction (O : OraclesReduction) (df : Frame)
    (nombre_de_dimension : Nat) (n_neighbors : Int) (min_dist : Rat) :
    Except String (Nat → List Rat) :=
  O.umapCalc df nombre_de_dimension n_neighbors min_dist

/-! ### Orchestration (`api.py`, `creer_graphique_interactif`) -/

/-- Coordinate column names chosen by `creer_graphique_interactif`:
`PC_1..n` for ACP, `TSNE_1..n` for t-SNE, `UMAP_1..n` for UMAP. -/
def nomsColonnes (m : MethodeBase) (n : Nat) : List String :=
  match m with
  | .acp => (List.range n).map (fun i => "PC_" ++ toString (i + 1))
  | .tsne => (List.range n).map (fun i => "TSNE_" ++ toString (i + 1))
  | .umap => (List.range n).map (fun i => "UMAP_" ++ toString (i + 1))

/-- Output rows of the plot frame: for the row at position `i` with key `k`,
the coordinate cells, then the `hover_name` cell (the key as a string), then
the optional colour cell looked up in the cleaned frame at key `k`. -/
def lignesGraphique (coords : Nat → List Rat) (etiquette : Nat → List Cell) :
    Nat → List Nat → List (Nat × List Cell)
  | _, [] => []
  | i, k :: reste =>
    (k, (coords i).map Cell.num ++ [Cell.texte (toString k)] ++ etiquette k)
      :: lignesGraphique coords etiquette (i + 1) reste

/-- Step 5 of `creer_graphique_interactif`: build the Plotly input frame,
indexed by the numeric subset's row keys, with the coordinate columns, the
`hover_name` column, and the colour column when one was requested. -/
def construireFrame (propres num : Frame) (p : ParametresVisualisation)
    (nomMeth : MethodeBase) (n : Nat) (coords : Nat → List Rat) : Frame :=
  let etiquette : Nat → List Cell :=
    match p.colonne_couleur with
    | some c => fun k => [propres.celluleA k c]
    | none => fun _ => []
  let colsEtiquette : List String :=
    match p.colonne_couleur with
    | some c => [c]
    | none => []
  ⟨nomsColonnes nomMeth n ++ ["hover_name"] ++ colsEtiquette,
   lignesGraphique coords etiquette 0 num.cles⟩

/-- Successful outcome of `creer_graphique_interactif`: the frame handed to
Plotly and the method actually used (the to-HTML rendering is presentation
only). -/
structure ResultatGraphique where
  donnees_graphique : Frame
  nom_methode : MethodeBase
deriving DecidableEq, Repr

/-- Steps 4-5 of `creer_graphique_interactif`: wrap an internal reduction
failure as an HTTP 500 naming the method, or build the output frame. -/
def assemblerResultat (propres num : Frame) (p : ParametresVisualisation)
    (nomMeth : MethodeBase) (n : Nat) (calcul : Except String (Nat → List Rat)) :
    Except HttpExc ResultatGraphique :=
  match calcul with
  | .error m =>
    .error ⟨500, "Erreur lors de l\x27exécution de " ++ nomEnMajuscules nomMeth ++ ": " ++ m⟩
  | .ok coords => .ok ⟨construireFrame propres num p nomMeth n coords, nomMeth⟩

/-- Embedding of `creer_graphique_interactif` (`api.py`). Step 1 always
drops rows with missing values and extracts the numeric subset, failing with
HTTP 400 when it is empty; step 2 rejects a colour column absent from the
raw frame with HTTP 404 before any reduction; step 3 resolves `auto` through
the `AutoSelector`; steps 4-5 run the chosen strategy and build the output
frame keyed by the numeric subset's rows. -/
def creer_graphique_interactif (O : OraclesReduction) (donnees_brutes : Frame)
    (methode : Methode) (n_composantes : Nat) (parametres : ParametresVisualisation) :
    Except HttpExc ResultatGraphique :=
  let donnees_propres := Netoyage.gerer_les_valeurs_manquantes donnees_brutes "drop"
  let donnees_numeriques := Numeric_data.num_col donnees_propres
  if frameVide donnees_numeriques then
    .error ⟨400, "Erreur de préparation des données: Aucune colonne numérique trouvée ou données vides après nettoyage."⟩
  else
    let verifCouleur : Except HttpExc Unit :=
      match parametres.colonne_couleur with
      | some c =>
        if c ∈ donnees_brutes.cols then .ok ()
        else .error ⟨404, "Colonne de couleur \x27" ++ c ++ "\x27 introuvable."⟩
      | none => .ok ()
    match verifCouleur with
    | .error e => .error e
    | .ok _ =>
      let nomMeth : MethodeBase :=
        match methode with
        | .acp => .acp
        | .tsne => .tsne
        | .umap => .umap
        | .auto => O.choixAuto donnees_numeriques n_composantes
      let calcul : Except String (Nat → List Rat) :=
        match nomMeth with
        | .acp => MethodeACP.acp_reduction O donnees_numeriques n_composantes
        | .tsne =>
          MethodeTSNE.tsne_reduction O donnees_numeriques n_composantes parametres.perplexite
        | .umap =>
          MethodeUMAP.umap_reduction O donnees_numeriques n_composantes
            parametres.n_voisins parametres.dist_min
      assemblerResultat donnees_propres donnees_numeriques parametres nomMeth n_composantes calcul

/-! ### Upload helper and endpoints (`api.py`) -/

/-- A FastAPI `UploadFile` together with the outcomes of parsing its content:
`lectureCsv` is the decode-sniff-`pd.read_csv` outcome, `lectureXlsx` the
`pd.read_excel` outcome. -/
structure FichierTeleverse where
  filename : String
  lectureCsv : Except String Frame
  lectureXlsx : Except String Frame

/-- Embedding of `obtenir_df_depuis_televersement` (`api.py`). The filename
check happens before `fichier.file.read()`; the boolean of the result
records whether the content was read. Any later decode or parse failure is
caught and surfaces as HTTP 400. -/
def obtenir_df_depuis_televersement (fichier : FichierTeleverse) :
    Except HttpExc Frame × Bool :=
  if !(termineEn fichier.filename ".csv" || termineEn fichier.filename ".xlsx") then
    (.error ⟨400, "Format de fichier non supporté (CSV ou XLSX requis)."⟩, false)
  else if termineEn fichier.filename ".csv" then
    match fichier.lectureCsv with
    | .ok df => (.ok df, true)
    | .error m => (.error ⟨400, "Erreur de lecture du fichier: " ++ m⟩, true)
  else
    match fichier.lectureXlsx with
    | .ok df => (.ok df, true)
    | .error m => (.error ⟨400, "Erreur de lecture du fichier: " ++ m⟩, true)

/-- Duplicate-removal step of the `/nettoyer-donnees` endpoint. -/
def etapeDoublons (parametres : ParametresNettoyage) (donnees : Frame) : Frame :=
  if parametres.supprimer_doublons then Netoyage.gerer_les_valeurs_duplicates donnees
  else donnees

/-- Missing-value step of the `/nettoyer-donnees` endpoint: `supprimer_na`
forces the `drop` strategy (the `elif` of `api.py` makes the imputation
strategy unreachable then); otherwise the imputation strategy, if any,
runs. -/
def etapeManquantes (parametres : ParametresNettoyage) (donnees : Frame) : Frame :=
  if parametres.supprimer_na then Netoyage.gerer_les_valeurs_manquantes donnees "drop"
  else
    match parametres.strategie_imputation with
    | some s => Netoyage.gerer_les_valeurs_manquantes donnees s
    | none => donnees

/-- Embedding of the cleaning sequence of the `/nettoyer-donnees` endpoint
(`api.py`, `nettoyer_donnees`): duplicates first, then missing values. -/
def nettoyer_donnees_noyau (parametres : ParametresNettoyage) (donnees : Frame) : Frame :=
  etapeManquantes parametres (etapeDoublons parametres donnees)

/-- Response of the visualisation endpoints, minus presentation. -/
structure ReponseVisualisation where
  methode_utilisee : MethodeBase
  rendu : Frame
deriving DecidableEq, Repr

/-- Embedding of the `/reduire-visualiser-2d` endpoint (`api.py`,
`reduire_visualiser_2d`): load the upload, validate the parameters, run the
orchestration with `n_composantes = 2`, and only on success hand the
rendered frame to the artifact store. The second component lists the
artifacts written by `sauvegarder_rendu_html` during the request. -/
def reduire_visualiser_2d (O : OraclesReduction) (fichier : FichierTeleverse)
    (methode : Methode) (parametres : ParametresVisualisation) :
    Except HttpExc ReponseVisualisation × List Frame :=
  match (obtenir_df_depuis_televersement fichier).1 with
  | .error e => (.error e, [])
  | .ok donnees =>
    if !parametres.valide then
      (.error ⟨422, "Erreur de validation des paramètres"⟩, [])
    else
      match creer_graphique_interactif O donnees methode 2 parametres with
      | .error e => (.error e, [])
      | .ok r => (.ok ⟨r.nom_methode, r.donnees_graphique⟩, [r.donnees_graphique])

/-- Client-error surfacing required by the spec's taxonomy (§7) for
`InvalidHyperparameter`: an HTTP 4xx status. -/
def estErreurClient (e : HttpExc) : Prop := 400 ≤ e.status ∧ e.status < 500

/-! ### Concrete data used by the witnesses and counterexamples -/

/-- Trivial remote oracles: every remote operation succeeds. -/
def envAbsent : EnvChargement :=
  ⟨PROJECT_ROOT, fun _ => .absente, fun _ => .ok (), fun _ => .ok (), fun _ => .ok ()⟩

/-- Environment whose filesystem holds a readable file at every path. -/
def envFichierPartout : EnvChargement :=
  ⟨PROJECT_ROOT, fun _ => .fichier "root:x:0:0" (.ok ()), fun _ => .ok (),
   fun _ => .ok (), fun _ => .ok ()⟩

/-- Environment with a readable one-line file at every path, used for the
delimiter-detection witness. -/
def envCsvPointVirgule : EnvChargement :=
  ⟨PROJECT_ROOT, fun _ => .fichier "nom;age;ville" (.ok ()), fun _ => .ok (),
   fun _ => .ok (), fun _ => .ok ()⟩

/-- Environment with an existing readable file of unrecognised extension. -/
def envFormatInconnu : EnvChargement :=
  ⟨PROJECT_ROOT, fun _ => .fichier "x" (.ok ()), fun _ => .ok (),
   fun _ => .ok (), fun _ => .ok ()⟩

/-- Environment whose network is down: every `requests.get` fails. -/
def envReseauEnPanne : EnvChargement :=
  ⟨PROJECT_ROOT, fun _ => .absente, fun _ => .ok (),
   fun _ => .error "Connection refused", fun _ => .ok ()⟩

/-- Oracles whose numerical routines all succeed with zero coordinates and
whose auto-selection always picks the linear method. -/
def oraclesTriviaux : OraclesReduction :=
  ⟨fun _ _ => .ok (fun _ => [0, 0]),
   fun _ _ _ => .ok (fun _ => [0, 0]),
   fun _ _ _ _ => .ok (fun _ => [0, 0]),
   fun _ _ => .acp⟩

/-- Oracles like `oraclesTriviaux` whose auto-selection picks UMAP. -/
def oraclesAutoUmap : OraclesReduction :=
  ⟨fun _ _ => .ok (fun _ => [0, 0]),
   fun _ _ _ => .ok (fun _ => [0, 0]),
   fun _ _ _ _ => .ok (fun _ => [0, 0]),
   fun _ _ => .umap⟩

/-- Frame of three fully numeric rows over two columns. -/
def dfTroisLignes : Frame :=
  ⟨["x", "y"], [(0, [.num 1, .num 2]), (1, [.num 3, .num 4]), (2, [.num 5, .num 6])]⟩

/-- Visualisation parameters requesting t-SNE perplexity 3 (equal to the row
count of `dfTroisLignes`), otherwise the defaults. -/
def pPerplexiteTrois : ParametresVisualisation :=
  ⟨none, "Visualisation Interactive", 3, 15, unDixieme⟩

/-- Visualisation parameters requesting t-SNE perplexity 2 (one less than
the row count of `dfTroisLignes`), otherwise the defaults. -/
def pPerplexiteDeux : ParametresVisualisation :=
  ⟨none, "Visualisation Interactive", 2, 15, unDixieme⟩

/-- Frame with two numeric columns, one text column, and one row containing
a missing value, used for the alignment witness. -/
def dfAlignement : Frame :=
  ⟨["a", "b", "nom"],
   [(0, [.num 1, .num 2, .texte "x"]),
    (1, [.manquant, .num 4, .texte "y"]),
    (2, [.num 5, .num 6, .texte "z"])]⟩

/-- Parameters requesting the colour column `nom`, otherwise the defaults. -/
def pCouleurNom : ParametresVisualisation :=
  ⟨some "nom", "Visualisation Interactive", 30, 15, unDixieme⟩

/-- Frame with two numeric columns, a text column and a missing value, used
for the column-naming witness. -/
def dfColonnes : Frame :=
  ⟨["u", "v", "w"],
   [(0, [.num 7, .num 8, .texte "p"]),
    (1, [.num 9, .manquant, .texte "q"])]⟩

/-- Frame with a duplicated row and a missing value, used for the cleaning
witness. -/
def dfNettoyage : Frame :=
  ⟨["a", "b"],
   [(0, [.num 1, .num 2]),
    (1, [.num 1, .num 2]),
    (2, [.manquant, .num 3]),
    (3, [.num 4, .num 5])]⟩

/-- Cleaning parameters with everything enabled: drop rows with missing
values, drop duplicates, and (unreachable) mean imputation. -/
def pNettoyageTout : ParametresNettoyage := ⟨true, true, some "mean"⟩

/-- Raw frame without any `couleur` column, used for the label witness. -/
def dfSansCouleur : Frame :=
  ⟨["a", "b"], [(0, [.num 1, .num 2]), (1, [.num 3, .num 4])]⟩

/-- Upload whose CSV content parses to `dfSansCouleur`. -/
def fichierSansCouleur : FichierTeleverse :=
  ⟨"donnees.csv", .ok dfSansCouleur, .error "zip"⟩

/-- Parameters requesting the absent colour column `couleur`. -/
def pCouleurAbsente : ParametresVisualisation :=
  ⟨some "couleur", "Visualisation Interactive", 30, 15, unDixieme⟩

/-- Upload of a legacy `.xls` spreadsheet whose content would parse fine. -/
def fichierXls : FichierTeleverse :=
  ⟨"donnees.xls", .ok dfSansCouleur, .ok dfSansCouleur⟩

/-- Upload of a `.csv` file. -/
def fichierCsv : FichierTeleverse :=
  ⟨"donnees.csv", .ok dfSansCouleur, .ok dfSansCouleur⟩

/-- Frame used by the UMAP-defaults witness. -/
def dfUmap : Frame := ⟨["x"], [(0, [.num 1]), (1, [.num 2])]⟩

/-- Expected reduction result for the alignment witness. -/
def rAlignement : ResultatGraphique :=
  ⟨⟨["PC_1", "PC_2", "hover_name", "nom"],
    [(0, [.num 0, .num 0, .texte "0", .texte "x"]),
     (2, [.num 0, .num 0, .texte "2", .texte "z"])]⟩, .acp⟩

/-- Expected reduction result for the column-naming witness. -/
def rColonnes : ResultatGraphique :=
  ⟨⟨["UMAP_1", "UMAP_2", "hover_name"],
    [(0, [.num 0, .num 0, .texte "0"])]⟩, .umap⟩

/-! ## Helper lemmas -/

theorem compteCarListe_eq_zero (l : List Char) (c : Char)
    (h : contientCarListe l c = false) : compteCarListe l c = 0 := by
  induction l with
  | nil => rfl
  | cons x xs ih =>
    simp only [contientCarListe, Bool.or_eq_false_iff, decide_eq_false_iff_not] at h
    simp [compteCarListe, h.1, ih h.2]

theorem envelopper_formes (ex : RawExc) :
    (∃ m, envelopper ex = .parserError m) ∨ (∃ m, envelopper ex = .wrappedException m) := by
  cases ex <;> simp [envelopper]

theorem lignesGraphique_map_fst (coords : Nat → List Rat) (etiquette : Nat → List Cell) :
    ∀ (cles : List Nat) (i : Nat),
      (lignesGraphique coords etiquette i cles).map Prod.fst = cles := by
  intro cles
  induction cles with
  | nil => intro i; rfl
  | cons k reste ih => intro i; simp [lignesGraphique, ih]

theorem lignesGraphique_longueur (coords : Nat → List Rat) (etiquette : Nat → List Cell) :
    ∀ (cles : List Nat) (i : Nat),
      (lignesGraphique coords etiquette i cles).length = cles.length := by
  intro cles
  induction cles with
  | nil => intro i; rfl
  | cons k reste ih => intro i; simp [lignesGraphique, ih]

theorem lignesGraphique_derniere (coords : Nat → List Rat) (etiquette : Nat → List Cell)
    (x : Nat → Cell) (hx : ∀ k, etiquette k = [x k]) :
    ∀ (cles : List Nat) (i : Nat),
      ∀ l ∈ lignesGraphique coords etiquette i cles, l.2.getLast? = some (x l.1) := by
  intro cles
  induction cles with
  | nil => intro i l hl; cases hl
  | cons k reste ih =>
    intro i l hl
    simp only [lignesGraphique] at hl
    rcases List.mem_cons.mp hl with hEq | hMem
    · subst hEq
      simp [hx, List.getLast?_concat]
    · exact ih (i + 1) l hMem

/-! ## C1 -/

/-- C1: for every load of a local (non-URL) source path, `DataLoader.load`
resolves the path to an absolute path and checks containment in the fixed
`PROJECT_ROOT` before any file-type dispatch: whenever the resolution
escapes the root, the call fails with the access-denied `ValueError` (the
code's `AccessDenied` surfacing), for every filesystem state at that path —
in particular whether or not the file exists — and for every extension. -/
theorem C1_confinement_local (env : EnvChargement) (file_path : String)
    (sql_query db_path : Option String) (image_as_dataframe : Bool)
    (hUrl : estUrl (chaineAcces file_path) = false)
    (hHors : prefixeListe PROJECT_ROOT (resoudreChemin env.cwd (chaineAcces file_path)) = false) :
    DataLoader.load env file_path sql_query db_path image_as_dataframe
      = .error (.valueError ACCES_REFUSE) := by
  unfold DataLoader.load
  simp [hUrl, hHors]

/-- Witness for C1 at the spec's scenario path `../../etc/passwd`, both with
the target absent and with it existing and readable. -/
theorem C1_temoin :
    DataLoader.load envAbsent "../../etc/passwd" none none false
      = .error (.valueError ACCES_REFUSE)
    ∧ DataLoader.load envFichierPartout "../../etc/passwd" none none false
      = .error (.valueError ACCES_REFUSE) :=
  ⟨C1_confinement_local envAbsent "../../etc/passwd" none none false (by decide) (by decide),
   C1_confinement_local envFichierPartout "../../etc/passwd" none none false (by decide) (by decide)⟩

/-! ## C7 -/

/-- C7: when `DataLoader.load` reads a local CSV file, the delimiter handed
to `pd.read_csv` is `detecter_separateur` of the file's first line (first
conjunct); detection scans the first line for `;`, `|`, tab, `,` in that
priority order (second conjunct, the full characterisation); and when none
of the candidates occurs in the first line it falls back to `;`, which is
then a most-frequent candidate of the first line since every candidate has
zero occurrences (third conjunct). -/
theorem C7_detection_separateur :
    (∀ (env : EnvChargement) (fp ligne : String) (sq dp : Option String) (iadf : Bool),
      estUrl (chaineAcces fp) = false →
      prefixeListe PROJECT_ROOT (resoudreChemin env.cwd (chaineAcces fp)) = true →
      suffixeFichier (chaineAcces fp) = "csv" →
      env.fs (resoudreChemin env.cwd (chaineAcces fp)) = .fichier ligne (.ok ()) →
      DataLoader.load env fp sq dp iadf = .ok (.csvFrame (detecter_separateur ligne)))
    ∧ (∀ ligne : String,
        detecter_separateur ligne =
          (if contientCar ligne ';' then ';'
           else if contientCar ligne '|' then '|'
           else if contientCar ligne '\t' then '\t'
           else if contientCar ligne ',' then ',' else ';'))
    ∧ (∀ ligne : String, (∀ c ∈ SEPARATEURS, contientCar ligne c = false) →
        detecter_separateur ligne = ';'
        ∧ ∀ c ∈ SEPARATEURS, compteCar ligne c ≤ compteCar ligne (detecter_separateur ligne)) := by
  refine ⟨?_, ?_, ?_⟩
  · intro env fp ligne sq dp iadf hUrl hIn hCsv hFs
    unfold DataLoader.load
    simp [hUrl, hIn, hCsv, hFs, chargeLocal, chargeFichierLocal]
  · intro ligne
    unfold detecter_separateur SEPARATEURS
    cases h1 : contientCar ligne ';' <;> cases h2 : contientCar ligne '|' <;>
      cases h3 : contientCar ligne '\t' <;> cases h4 : contientCar ligne ',' <;>
        simp [List.find?, h1, h2, h3, h4]
  · intro ligne h
    have h1 := h ';' (by simp [SEPARATEURS])
    have h2 := h '|' (by simp [SEPARATEURS])
    have h3 := h '\t' (by simp [SEPARATEURS])
    have h4 := h ',' (by simp [SEPARATEURS])
    have hdet : detecter_separateur ligne = ';' := by
      unfold detecter_separateur SEPARATEURS
      simp [List.find?, h1, h2, h3, h4]
    refine ⟨hdet, ?_⟩
    intro c hc
    rw [hdet]
    have hz : compteCar ligne c = 0 := compteCarListe_eq_zero _ _ (h c hc)
    simp [hz]

/-- Witness for C7: a local `;`-separated CSV loads with detected separator
`;` without any configuration; priority detection on a line holding both
`|` and `,`; and the fallback case on a line with no candidate at all. -/
theorem C7_temoin :
    DataLoader.load envCsvPointVirgule "donnees.csv" none none false
      = .ok (.csvFrame ';')
    ∧ detecter_separateur "a|b,c" = '|'
    ∧ (detecter_separateur "prenom nom age" = ';'
       ∧ ∀ c ∈ SEPARATEURS, compteCar "prenom nom age" c
           ≤ compteCar "prenom nom age" (detecter_separateur "prenom nom age")) := by
  refine ⟨?_, ?_, ?_⟩
  · exact (C7_detection_separateur.1 envCsvPointVirgule "donnees.csv" "nom;age;ville"
      none none false (by decide) (by decide) (by decide) rfl).trans (by decide)
  · exact (C7_detection_separateur.2.1 "a|b,c").trans (by decide)
  · exact C7_detection_separateur.2.2 "prenom nom age" (by decide)

/-! ## C5 -/

theorem envelopper_disjonction (ex : RawExc) (e : PyErr) (h : envelopper ex = e) :
    (∃ m, e = .fileNotFound m) ∨ (∃ m, e = .parserError m)
    ∨ (∃ m, e = .wrappedException m) ∨ e = .valueError ACCES_REFUSE := by
  subst h; cases ex <;> simp [envelopper]

theorem formes_chargeFichierLocal (ft : String) (sq dp : Option String) (iadf : Bool)
    (ligne : String) (lecture : Except RawExc Unit) (e : PyErr)
    (h : chargeFichierLocal ft sq dp iadf ligne lecture = .error e) :
    (∃ m, e = .fileNotFound m) ∨ (∃ m, e = .parserError m)
    ∨ (∃ m, e = .wrappedException m) ∨ e = .valueError ACCES_REFUSE := by
  unfold chargeFichierLocal at h
  repeat' split at h
  all_goals simp only [Except.error.injEq, reduceCtorEq] at h
  all_goals first
    | exact absurd h (by simp)
    | (subst h; exact Or.inr (Or.inl ⟨_, rfl⟩))
    | (subst h; exact envelopper_disjonction _ _ rfl)

theorem formes_chargeLocal (entree : FSEntry) (fp ft : String) (sq dp : Option String)
    (iadf : Bool) (e : PyErr)
    (h : chargeLocal entree fp ft sq dp iadf = .error e) :
    (∃ m, e = .fileNotFound m) ∨ (∃ m, e = .parserError m)
    ∨ (∃ m, e = .wrappedException m) ∨ e = .valueError ACCES_REFUSE := by
  cases entree with
  | absente => simp only [chargeLocal, Except.error.injEq] at h; subst h; exact Or.inl ⟨_, rfl⟩
  | illisible =>
    simp only [chargeLocal, Except.error.injEq] at h; subst h
    exact Or.inr (Or.inr (Or.inl ⟨_, rfl⟩))
  | fichier ligne lecture => exact formes_chargeFichierLocal ft sq dp iadf ligne lecture e h

theorem formes_chargeDistant (env : EnvChargement) (fp ft : String) (e : PyErr)
    (h : chargeDistant env fp ft = .error e) :
    (∃ m, e = .fileNotFound m) ∨ (∃ m, e = .parserError m)
    ∨ (∃ m, e = .wrappedException m) ∨ e = .valueError ACCES_REFUSE := by
  unfold chargeDistant at h
  repeat' split at h
  all_goals simp only [Except.error.injEq, reduceCtorEq] at h
  all_goals first
    | exact absurd h (by simp)
    | (subst h; exact envelopper_disjonction _ _ rfl)

/-- C5 counterexample: a load failing for one of the claim's listed causes —
here an existing local file of unsupported format, and likewise a remote
fetch hit by a network failure — escapes as the generic catch-all
`Exception` wrap, whose type realises none of the four normalized kinds
(`kindNormalise` returns `none`); the unsupported-format failure and the
network failure raise the very same exception type, so the caller cannot
tell the kinds apart by what is raised. -/
theorem C5_contre_exemple :
    DataLoader.load envFormatInconnu "donnees.foo" none none false
      = .error (.wrappedException
          (PREFIXE_ENVELOPPE ++ "Format de fichier local non supporté : \x27foo\x27"))
    ∧ kindNormalise (.wrappedException
        (PREFIXE_ENVELOPPE ++ "Format de fichier local non supporté : \x27foo\x27")) = none
    ∧ DataLoader.load envReseauEnPanne "http://exemple.org/donnees.json" none none false
      = .error (.wrappedException
          (PREFIXE_ENVELOPPE
            ++ "Erreur de téléchargement de l\x27URL \x27http://exemple.org/donnees.json\x27: Connection refused"))
    ∧ kindNormalise (.wrappedException
        (PREFIXE_ENVELOPPE
          ++ "Erreur de téléchargement de l\x27URL \x27http://exemple.org/donnees.json\x27: Connection refused")) = none := by
  refine ⟨by decide, rfl, by decide, rfl⟩

/-- C5 (amended): every failing `DataLoader.load` raises one of exactly four
exception shapes — `FileNotFoundError` for a missing local file (the
`NotFound` surfacing, itself an `OSError` subclass deliberately propagated),
`pandas.errors.ParserError` for a CSV parse failure (the `ParseError`
surfacing), the access-denied `ValueError` of the containment check, or the
generic catch-all `Exception` wrap carrying the cause only in its message
(network failures, unsupported formats, unreadable files, and every other
parse failure); no other low-level exception escapes to the caller. -/
theorem C5_normalisation_amendee (env : EnvChargement) (fp : String)
    (sq dp : Option String) (iadf : Bool) (e : PyErr)
    (h : DataLoader.load env fp sq dp iadf = .error e) :
    (∃ m, e = .fileNotFound m) ∨ (∃ m, e = .parserError m)
    ∨ (∃ m, e = .wrappedException m) ∨ e = .valueError ACCES_REFUSE := by
  simp only [DataLoader.load] at h
  split at h
  · simp only [Except.error.injEq] at h; subst h; exact Or.inr (Or.inr (Or.inr rfl))
  · split at h
    · exact formes_chargeDistant _ _ _ e h
    · exact formes_chargeLocal _ _ _ _ _ _ e h

/-- Witness for C5 (amended) at a concrete missing local file. -/
theorem C5_temoin :
    (∃ m, (PyErr.fileNotFound
        "Erreur : Le fichier à l\x27adresse \x27donnees/absent.csv\x27 est introuvable.")
      = PyErr.fileNotFound m)
    ∨ (∃ m, (PyErr.fileNotFound
        "Erreur : Le fichier à l\x27adresse \x27donnees/absent.csv\x27 est introuvable.")
      = PyErr.parserError m)
    ∨ (∃ m, (PyErr.fileNotFound
        "Erreur : Le fichier à l\x27adresse \x27donnees/absent.csv\x27 est introuvable.")
      = PyErr.wrappedException m)
    ∨ (PyErr.fileNotFound
        "Erreur : Le fichier à l\x27adresse \x27donnees/absent.csv\x27 est introuvable.")
      = PyErr.valueError ACCES_REFUSE :=
  C5_normalisation_amendee envAbsent "donnees/absent.csv" none none false _ (by decide)

/-! ## C2 -/

/-- C2: every successful run of `creer_graphique_interactif` returns a frame
with exactly as many rows as the numeric subset surviving the internal
drop-missing cleaning pass (never the raw row count), keyed by exactly the
numeric subset's row keys in order; and when a label column is requested,
each output row carries as its final cell the cleaned frame's label value at
that row key, so the label column's row keys are exactly the numeric
subset's keys — none extra and none missing. -/
theorem C2_alignement (O : OraclesReduction) (df : Frame) (methode : Methode)
    (k : Nat) (p : ParametresVisualisation) (r : ResultatGraphique)
    (h : creer_graphique_interactif O df methode k p = .ok r) :
    r.donnees_graphique.rows.length
      = (Numeric_data.num_col (Netoyage.gerer_les_valeurs_manquantes df "drop")).rows.length
    ∧ r.donnees_graphique.cles
      = (Numeric_data.num_col (Netoyage.gerer_les_valeurs_manquantes df "drop")).cles
    ∧ (∀ c, p.colonne_couleur = some c →
        ∀ l ∈ r.donnees_graphique.rows,
          l.2.getLast? = some ((Netoyage.gerer_les_valeurs_manquantes df "drop").celluleA l.1 c)) := by
  simp only [creer_graphique_interactif] at h
  split at h
  · exact absurd h (by simp)
  · split at h
    · exact absurd h (by simp)
    · simp only [assemblerResultat] at h
      split at h
      · exact absurd h (by simp)
      · simp only [Except.ok.injEq] at h
        subst h
        refine ⟨?_, ?_, ?_⟩
        · simp [construireFrame, lignesGraphique_longueur, Frame.cles]
        · simp [construireFrame, Frame.cles, lignesGraphique_map_fst]
        · intro c hc l hl
          simp only [construireFrame, hc] at hl
          exact lignesGraphique_derniere _ _
            (fun kk => (Netoyage.gerer_les_valeurs_manquantes df "drop").celluleA kk c)
            (fun _ => rfl) _ 0 l hl

/-- Witness for C2: a concrete run over a frame whose middle row is dropped
for a missing value, with the text column `nom` requested as label. -/
theorem C2_temoin :
    rAlignement.donnees_graphique.rows.length
      = (Numeric_data.num_col (Netoyage.gerer_les_valeurs_manquantes dfAlignement "drop")).rows.length
    ∧ rAlignement.donnees_graphique.cles
      = (Numeric_data.num_col (Netoyage.gerer_les_valeurs_manquantes dfAlignement "drop")).cles
    ∧ (∀ c, pCouleurNom.colonne_couleur = some c →
        ∀ l ∈ rAlignement.donnees_graphique.rows,
          l.2.getLast? = some ((Netoyage.gerer_les_valeurs_manquantes dfAlignement "drop").celluleA l.1 c)) :=
  C2_alignement oraclesTriviaux dfAlignement .acp 2 pCouleurNom rAlignement (by decide)

/-! ## C3 -/

/-- C3: every successful run of `creer_graphique_interactif` returns a frame
whose columns are exactly the coordinate columns of the chosen method
followed by `hover_name` and the optional label column; the coordinate
columns number exactly `n_composantes`, and for the dimensionalities 2 and 3
their names are the fixed `PC_i`, `TSNE_i`, `UMAP_i` sequences determined
solely by the method and the dimensionality. -/
theorem C3_colonnes (O : OraclesReduction) (df : Frame) (methode : Methode)
    (k : Nat) (p : ParametresVisualisation) (r : ResultatGraphique)
    (h : creer_graphique_interactif O df methode k p = .ok r) :
    r.donnees_graphique.cols
      = nomsColonnes r.nom_methode k ++ ["hover_name"]
        ++ (match p.colonne_couleur with | some c => [c] | none => [])
    ∧ (nomsColonnes r.nom_methode k).length = k
    ∧ (nomsColonnes MethodeBase.acp 2 = ["PC_1", "PC_2"]
       ∧ nomsColonnes MethodeBase.acp 3 = ["PC_1", "PC_2", "PC_3"]
       ∧ nomsColonnes MethodeBase.tsne 2 = ["TSNE_1", "TSNE_2"]
       ∧ nomsColonnes MethodeBase.tsne 3 = ["TSNE_1", "TSNE_2", "TSNE_3"]
       ∧ nomsColonnes MethodeBase.umap 2 = ["UMAP_1", "UMAP_2"]
       ∧ nomsColonnes MethodeBase.umap 3 = ["UMAP_1", "UMAP_2", "UMAP_3"]) := by
  have hlen : ∀ (m : MethodeBase) (n : Nat), (nomsColonnes m n).length = n := by
    intro m n; cases m <;> simp [nomsColonnes]
  simp only [creer_graphique_interactif] at h
  split at h
  · exact absurd h (by simp)
  · split at h
    · exact absurd h (by simp)
    · simp only [assemblerResultat] at h
      split at h
      · exact absurd h (by simp)
      · simp only [Except.ok.injEq] at h
        subst h
        refine ⟨?_, hlen _ _, by decide⟩
        cases hc : p.colonne_couleur <;> simp [construireFrame, hc]

/-- Witness for C3: an `auto` run resolved to UMAP in two dimensions over a
frame with two numeric columns, without a label column. -/
theorem C3_temoin :
    rColonnes.donnees_graphique.cols
      = nomsColonnes rColonnes.nom_methode 2 ++ ["hover_name"]
        ++ (match parametresVisualisationDefaut.colonne_couleur with
            | some c => [c] | none => [])
    ∧ (nomsColonnes rColonnes.nom_methode 2).length = 2
    ∧ (nomsColonnes MethodeBase.acp 2 = ["PC_1", "PC_2"]
       ∧ nomsColonnes MethodeBase.acp 3 = ["PC_1", "PC_2", "PC_3"]
       ∧ nomsColonnes MethodeBase.tsne 2 = ["TSNE_1", "TSNE_2"]
       ∧ nomsColonnes MethodeBase.tsne 3 = ["TSNE_1", "TSNE_2", "TSNE_3"]
       ∧ nomsColonnes MethodeBase.umap 2 = ["UMAP_1", "UMAP_2"]
       ∧ nomsColonnes MethodeBase.umap 3 = ["UMAP_1", "UMAP_2", "UMAP_3"]) :=
  C3_colonnes oraclesAutoUmap dfColonnes .auto 2 parametresVisualisationDefaut rColonnes (by decide)

/-! ## C6 -/

/-- C6: the `/nettoyer-donnees` cleaning sequence applies duplicate removal
(when enabled) before missing-value handling — the first conjunct is the
exact factorisation of the endpoint's body — and missing-value handling is
drop-wins: with `supprimer_na` set, the result is the drop of the
deduplicated frame whatever imputation strategy is also supplied (so the
result is independent of the strategy), every surviving row is free of
missing values, and the surviving rows are an unaltered sublist of the
deduplicated frame's rows (no imputation touched them). -/
theorem C6_ordre_et_drop_gagne (p : ParametresNettoyage) (df : Frame)
    (hna : p.supprimer_na = true) :
    (∀ q : ParametresNettoyage, nettoyer_donnees_noyau q df
        = etapeManquantes q (etapeDoublons q df))
    ∧ (∀ s : Option String,
        nettoyer_donnees_noyau ⟨true, p.supprimer_doublons, s⟩ df
          = lignesSansManquant (etapeDoublons p df))
    ∧ (∀ l ∈ (nettoyer_donnees_noyau p df).rows, ligneAvecManquant l.2 = false)
    ∧ (nettoyer_donnees_noyau p df).rows.Sublist (etapeDoublons p df).rows := by
  have hrw : nettoyer_donnees_noyau p df = lignesSansManquant (etapeDoublons p df) := by
    unfold nettoyer_donnees_noyau etapeManquantes
    simp [hna, Netoyage.gerer_les_valeurs_manquantes]
  refine ⟨fun q => rfl, ?_, ?_, ?_⟩
  · intro s
    unfold nettoyer_donnees_noyau etapeManquantes etapeDoublons
    simp [Netoyage.gerer_les_valeurs_manquantes]
  · intro l hl
    rw [hrw] at hl
    have := (List.mem_filter.mp hl).2
    simpa using this
  · rw [hrw]
    exact List.filter_sublist _

/-- Witness for C6: a concrete frame with a duplicated row and a row holding
a missing value, cleaned with everything enabled; the two drop-wins
instances show the imputation strategy is ignored. -/
theorem C6_temoin :
    nettoyer_donnees_noyau pNettoyageTout dfNettoyage
      = etapeManquantes pNettoyageTout (etapeDoublons pNettoyageTout dfNettoyage)
    ∧ nettoyer_donnees_noyau ⟨true, true, some "median"⟩ dfNettoyage
      = lignesSansManquant (etapeDoublons pNettoyageTout dfNettoyage)
    ∧ nettoyer_donnees_noyau ⟨true, true, none⟩ dfNettoyage
      = lignesSansManquant (etapeDoublons pNettoyageTout dfNettoyage)
    ∧ (nettoyer_donnees_noyau pNettoyageTout dfNettoyage).rows.Sublist
        (etapeDoublons pNettoyageTout dfNettoyage).rows := by
  have h := C6_ordre_et_drop_gagne pNettoyageTout dfNettoyage rfl
  exact ⟨h.1 pNettoyageTout, h.2.1 (some "median"), h.2.1 none, h.2.2.2⟩

/-! ## C10 -/

/-- C10: the upload helper of the API endpoints accepts only filenames
ending in `.csv` or `.xlsx`: any other filename — `.xls` included — is
rejected with HTTP 400 before the file content is read (the boolean
component records whether `fichier.file.read()` ran), while an accepted
filename has its content read. -/
theorem C10_filtre_televersement :
    (∀ f : FichierTeleverse, termineEn f.filename ".csv" = false →
      termineEn f.filename ".xlsx" = false →
      obtenir_df_depuis_televersement f
        = (.error ⟨400, "Format de fichier non supporté (CSV ou XLSX requis)."⟩, false))
    ∧ (∀ f : FichierTeleverse,
        (termineEn f.filename ".csv" = true ∨ termineEn f.filename ".xlsx" = true) →
        (obtenir_df_depuis_televersement f).2 = true) := by
  constructor
  · intro f h1 h2
    unfold obtenir_df_depuis_televersement
    simp [h1, h2]
  · intro f h
    unfold obtenir_df_depuis_televersement
    cases hcsv : termineEn f.filename ".csv" <;>
      cases hxlsx : termineEn f.filename ".xlsx" <;>
        cases hc : f.lectureCsv <;> cases hx : f.lectureXlsx <;>
          simp_all

/-- Witness for C10: the `.xls` upload is rejected with HTTP 400 and its
content is never read; the `.csv` upload has its content read. -/
theorem C10_temoin :
    obtenir_df_depuis_televersement fichierXls
      = (.error ⟨400, "Format de fichier non supporté (CSV ou XLSX requis)."⟩, false)
    ∧ (obtenir_df_depuis_televersement fichierCsv).2 = true :=
  ⟨C10_filtre_televersement.1 fichierXls (by decide) (by decide),
   C10_filtre_televersement.2 fichierCsv (Or.inl (by decide))⟩

/-! ## C4, C8, C9 -/

theorem creer_tsne_reduit (O : OraclesReduction) (df : Frame) (k : Nat)
    (p : ParametresVisualisation)
    (hnum : frameVide (Numeric_data.num_col (Netoyage.gerer_les_valeurs_manquantes df "drop")) = false)
    (hcoul : p.colonne_couleur = none) :
    creer_graphique_interactif O df .tsne k p
      = assemblerResultat (Netoyage.gerer_les_valeurs_manquantes df "drop")
          (Numeric_data.num_col (Netoyage.gerer_les_valeurs_manquantes df "drop")) p .tsne k
          (MethodeTSNE.tsne_reduction O
            (Numeric_data.num_col (Netoyage.gerer_les_valeurs_manquantes df "drop")) k p.perplexite) := by
  simp [creer_graphique_interactif, hnum, hcoul]

theorem creer_umap_reduit (O : OraclesReduction) (df : Frame) (k : Nat)
    (p : ParametresVisualisation)
    (hnum : frameVide (Numeric_data.num_col (Netoyage.gerer_les_valeurs_manquantes df "drop")) = false)
    (hcoul : p.colonne_couleur = none) :
    creer_graphique_interactif O df .umap k p
      = assemblerResultat (Netoyage.gerer_les_valeurs_manquantes df "drop")
          (Numeric_data.num_col (Netoyage.gerer_les_valeurs_manquantes df "drop")) p .umap k
          (O.umapCalc (Numeric_data.num_col (Netoyage.gerer_les_valeurs_manquantes df "drop"))
            k p.n_voisins p.dist_min) := by
  simp [creer_graphique_interactif, hnum, hcoul, MethodeUMAP.umap_reduction]

/-- C4 counterexample: on a three-row numeric frame, requesting t-SNE with
perplexity 3 (equal to the row count) does not fail with a typed
hyperparameter client error: the underlying routine's `ValueError` is
wrapped into the generic HTTP 500 execution failure, whose status is not in
the client-error class the spec's taxonomy assigns to
`InvalidHyperparameter`. -/
theorem C4_contre_exemple :
    creer_graphique_interactif oraclesTriviaux dfTroisLignes .tsne 2 pPerplexiteTrois
      = .error ⟨500, "Erreur lors de l\x27exécution de TSNE: perplexity must be less than n_samples"⟩
    ∧ ¬ estErreurClient
        ⟨500, "Erreur lors de l\x27exécution de TSNE: perplexity must be less than n_samples"⟩ := by
  constructor
  · decide
  · intro hcl
    exact absurd hcl.2 (by decide)

/-- C4 (amended): with `perplexity ≥ row_count` of the numeric subset, the
t-SNE run fails with the HTTP 500 wrap of the underlying routine's message
(`Erreur lors de l\x27exécution de TSNE: perplexity must be less than
n_samples`), not with a typed hyperparameter client error; and with
`perplexity = row_count - 1` the routine's validity check passes, so the run
succeeds or fails only with the wrap of an unrelated internal numerical
failure of the routine itself. -/
theorem C4_perplexite_amendee (O : OraclesReduction) (df : Frame)
    (p : ParametresVisualisation) (k : Nat)
    (hnum : frameVide (Numeric_data.num_col (Netoyage.gerer_les_valeurs_manquantes df "drop")) = false)
    (hcoul : p.colonne_couleur = none) :
    (((Numeric_data.num_col (Netoyage.gerer_les_valeurs_manquantes df "drop")).rows.length : Int)
        ≤ p.perplexite →
      creer_graphique_interactif O df .tsne k p
        = .error ⟨500, "Erreur lors de l\x27exécution de TSNE: perplexity must be less than n_samples"⟩)
    ∧ (p.perplexite
        = ((Numeric_data.num_col (Netoyage.gerer_les_valeurs_manquantes df "drop")).rows.length : Int) - 1 →
      (∃ r, creer_graphique_interactif O df .tsne k p = .ok r)
      ∨ (∃ m, O.tsneCalc (Numeric_data.num_col (Netoyage.gerer_les_valeurs_manquantes df "drop"))
            k p.perplexite = .error m
          ∧ creer_graphique_interactif O df .tsne k p
            = .error ⟨500, "Erreur lors de l\x27exécution de TSNE: " ++ m⟩)) := by
  rw [creer_tsne_reduit O df k p hnum hcoul]
  constructor
  · intro h1
    unfold MethodeTSNE.tsne_reduction
    rw [if_pos h1]
    rfl
  · intro h2
    have hlt : ¬ (((Numeric_data.num_col (Netoyage.gerer_les_valeurs_manquantes df "drop")).rows.length : Int)
        ≤ p.perplexite) := by omega
    unfold MethodeTSNE.tsne_reduction
    rw [if_neg hlt]
    cases hres : O.tsneCalc (Numeric_data.num_col (Netoyage.gerer_les_valeurs_manquantes df "drop"))
        k p.perplexite with
    | ok coords => exact Or.inl ⟨_, rfl⟩
    | error m => exact Or.inr ⟨m, rfl, rfl⟩

/-- Witness for C4 (amended): on the three-row frame, perplexity 3 yields
the HTTP 500 wrap, and perplexity 2 reaches the embedding itself. -/
theorem C4_temoin :
    creer_graphique_interactif oraclesTriviaux dfTroisLignes .tsne 2 pPerplexiteDeux
      ≠ .error ⟨500, "Erreur lors de l\x27exécution de TSNE: perplexity must be less than n_samples"⟩
    ∧ ((∃ r, creer_graphique_interactif oraclesTriviaux dfTroisLignes .tsne 2 pPerplexiteDeux = .ok r)
      ∨ (∃ m, oraclesTriviaux.tsneCalc
            (Numeric_data.num_col (Netoyage.gerer_les_valeurs_manquantes dfTroisLignes "drop"))
            2 pPerplexiteDeux.perplexite = .error m
          ∧ creer_graphique_interactif oraclesTriviaux dfTroisLignes .tsne 2 pPerplexiteDeux
            = .error ⟨500, "Erreur lors de l\x27exécution de TSNE: " ++ m⟩)) := by
  have h := (C4_perplexite_amendee oraclesTriviaux dfTroisLignes pPerplexiteDeux 2
    (by decide) rfl).2 (by decide)
  exact ⟨by decide, h⟩

/-- C8: the graph-embedding hyperparameters default to `n_voisins = 15` and
`dist_min = 1/10` when the API caller does not supply them (Pydantic field
defaults of `ParametresVisualisation`), the Pydantic validation constrains
`n_voisins` to an integer ≥ 2 and `dist_min` to a nonnegative value, the
defaults pass that validation, and with the default parameters the
orchestration hands exactly 15 and 1/10 to the UMAP routine. -/
theorem C8_umap_defauts :
    parametresVisualisationDefaut.n_voisins = 15
    ∧ parametresVisualisationDefaut.dist_min = unDixieme
    ∧ unDixieme.num = 1 ∧ unDixieme.den = 10
    ∧ parametresVisualisationDefaut.valide = true
    ∧ (∀ p : ParametresVisualisation, p.valide = true → 2 ≤ p.n_voisins ∧ 0 ≤ p.dist_min)
    ∧ (∀ (O : OraclesReduction) (df : Frame) (k : Nat),
        frameVide (Numeric_data.num_col (Netoyage.gerer_les_valeurs_manquantes df "drop")) = false →
        creer_graphique_interactif O df .umap k parametresVisualisationDefaut
          = assemblerResultat (Netoyage.gerer_les_valeurs_manquantes df "drop")
              (Numeric_data.num_col (Netoyage.gerer_les_valeurs_manquantes df "drop"))
              parametresVisualisationDefaut .umap k
              (O.umapCalc (Numeric_data.num_col (Netoyage.gerer_les_valeurs_manquantes df "drop"))
                k 15 unDixieme)) := by
  refine ⟨rfl, rfl, rfl, rfl, by decide, ?_, ?_⟩
  · intro p hv
    unfold ParametresVisualisation.valide at hv
    simp only [Bool.and_eq_true, decide_eq_true_eq] at hv
    exact ⟨hv.1.2, hv.2⟩
  · intro O df k hnum
    exact creer_umap_reduit O df k parametresVisualisationDefaut hnum rfl

/-- Witness for C8: the validation bounds hold at the defaults, and a
concrete default-parameter UMAP run is exactly the oracle applied at
`n_neighbors = 15`, `min_dist = 1/10`. -/
theorem C8_temoin :
    (2 ≤ parametresVisualisationDefaut.n_voisins ∧ 0 ≤ parametresVisualisationDefaut.dist_min)
    ∧ creer_graphique_interactif oraclesTriviaux dfUmap .umap 2 parametresVisualisationDefaut
      = assemblerResultat (Netoyage.gerer_les_valeurs_manquantes dfUmap "drop")
          (Numeric_data.num_col (Netoyage.gerer_les_valeurs_manquantes dfUmap "drop"))
          parametresVisualisationDefaut .umap 2
          (oraclesTriviaux.umapCalc
            (Numeric_data.num_col (Netoyage.gerer_les_valeurs_manquantes dfUmap "drop")) 2 15 unDixieme) :=
  ⟨C8_umap_defauts.2.2.2.2.2.1 parametresVisualisationDefaut (by decide),
   C8_umap_defauts.2.2.2.2.2.2 oraclesTriviaux dfUmap 2 (by decide)⟩

/-- C9: when a requested label column is absent from the raw uploaded frame,
the 2D endpoint fails with the HTTP 404 label-not-found error — the check
reads the raw frame's columns, runs before any reduction (the outcome is the
same for every reduction oracle and every requested method), and no artifact
is stored (the artifact list is empty). -/
theorem C9_couleur_introuvable (O : OraclesReduction) (f : FichierTeleverse)
    (df : Frame) (methode : Methode) (p : ParametresVisualisation) (c : String)
    (hdf : (obtenir_df_depuis_televersement f).1 = .ok df)
    (hval : p.valide = true)
    (hc : p.colonne_couleur = some c)
    (habs : c ∉ df.cols)
    (hnum : frameVide (Numeric_data.num_col (Netoyage.gerer_les_valeurs_manquantes df "drop")) = false) :
    reduire_visualiser_2d O f methode p
      = (.error ⟨404, "Colonne de couleur \x27" ++ c ++ "\x27 introuvable."⟩, []) := by
  unfold reduire_visualiser_2d
  rw [hdf]
  simp [hval, creer_graphique_interactif, hnum, hc, habs]

/-- Witness for C9: uploading a CSV whose frame has columns `a`, `b` while
requesting colour column `couleur` fails with the 404 and stores nothing. -/
theorem C9_temoin :
    reduire_visualiser_2d oraclesTriviaux fichierSansCouleur .acp pCouleurAbsente
      = (.error ⟨404, "Colonne de couleur \x27couleur\x27 introuvable."⟩, []) := by
  have h := C9_couleur_introuvable oraclesTriviaux fichierSansCouleur dfSansCouleur .acp
    pCouleurAbsente "couleur" (by decide) (by decide) rfl (by decide) (by decide)
  exact h.trans (by decide)
